import Mathlib

/-!
Shallow embedding of the health-risk analysis and notification-scheduler core
of the jessicaUpdate chronic-care application, together with theorems settling
the frozen claims about it.

Sources embedded here:
* AIAnalysisService.analyzeSingleReading, calculateMedicationAdherence,
  analyzeTrends, generatePredictions (src/unnamed/part_002);
* getRiskLevel (src/backend/services/emailService.js);
* analyzeHealthTrends, generateHealthPredictions,
  generatePersonalizedRecommendations (src/client/src/pages/Medications.jsx);
* the add-health-data route (src/backend/routes/healthData.js) with the
  riskLevel enum of src/backend/models/HealthData.js;
* EmailScheduler.checkDailyUpdates and checkAndSendAlerts
  (src/backend/services/emailScheduler.js).

JavaScript numbers are modelled as rationals; NaN and undefined appear as
Option.none where the code can produce them; thrown-and-caught exceptions are
modelled as the explicit fallback branches the catch blocks produce.
-/

/-- A JavaScript value occurring in a reading's value slot: null, a string,
a number, or an object.  The only objects this application stores in value
slots are blood-pressure pairs with numeric systolic and diastolic fields
(built by the add-health-data route), so objects are modelled by the bp
constructor. -/
inductive JsVal where
  | null : JsVal
  | str (s : String) : JsVal
  | num (q : ℚ) : JsVal
  | bp (systolic diastolic : ℚ) : JsVal
deriving DecidableEq

/-- JavaScript falsiness test for the values of JsVal. -/
def jsFalsy : JsVal → Bool
  | .null => true
  | .str s => s == ""
  | .num q => q == 0
  | .bp _ _ => false

/-- Reading the systolic field of a JavaScript value; none models undefined. -/
def sysField : JsVal → Option ℚ
  | .bp s _ => some s
  | _ => none

/-- Reading the diastolic field of a JavaScript value; none models undefined. -/
def diaField : JsVal → Option ℚ
  | .bp _ d => some d
  | _ => none

/-- Strict greater-than against a possibly-undefined or NaN operand: in
JavaScript both undefined and NaN compare false. -/
def gtU (v : Option ℚ) (c : ℚ) : Bool :=
  match v with
  | none => false
  | some q => decide (c < q)

/-- Strict less-than against a possibly-undefined or NaN operand. -/
def ltU (v : Option ℚ) (c : ℚ) : Bool :=
  match v with
  | none => false
  | some q => decide (q < c)

/-- Splits a character list into its leading run of decimal digits and the
rest. -/
def takeDigits : List Char → List Char × List Char
  | [] => ([], [])
  | c :: cs =>
    if c.isDigit then
      let p := takeDigits cs
      (c :: p.1, p.2)
    else ([], c :: cs)

/-- Value of a list of decimal digit characters. -/
def digitsToNat (cs : List Char) : ℕ :=
  cs.foldl (fun a c => a * 10 + (c.toNat - 48)) 0

/-- Parses an unsigned decimal literal (digits with an optional fractional
part) from the front of a character list, returning the value and the rest. -/
def parseUnsigned? (cs : List Char) : Option (ℚ × List Char) :=
  let p := takeDigits cs
  if p.1 = [] then none
  else
    match p.2 with
    | '.' :: rest =>
      let f := takeDigits rest
      if f.1 = [] then none
      else some ((digitsToNat p.1 : ℚ) + (digitsToNat f.1 : ℚ) / (10 : ℚ) ^ f.1.length, f.2)
    | r => some ((digitsToNat p.1 : ℚ), r)

/-- Parses an optionally negated decimal literal from the front of a
character list. -/
def parseSigned? (cs : List Char) : Option (ℚ × List Char) :=
  match cs with
  | '-' :: rest => (parseUnsigned? rest).map (fun p => (-p.1, p.2))
  | _ => parseUnsigned? cs

/-- Model of JavaScript parseFloat on the values this system stores:
numbers pass through, strings are read for a leading decimal literal, and
everything else is NaN (none). -/
def parseFloatJs : JsVal → Option ℚ
  | .num q => some q
  | .str s => (parseSigned? s.data).map (·.1)
  | _ => none

/-- Drops an expected literal from the front of a character list, or fails. -/
def dropLit : List Char → List Char → Option (List Char)
  | [], cs => some cs
  | _ :: _, [] => none
  | p :: ps, c :: cs => if p = c then dropLit ps cs else none

/-- Parses the canonical JSON text the add-health-data route stores for a
blood-pressure reading: an object with numeric systolic and diastolic
fields, exactly as produced by JSON.stringify. -/
def parseBp? (s : String) : Option (ℚ × ℚ) :=
  match dropLit "\x7b\"systolic\":".data s.data with
  | none => none
  | some r1 =>
    match parseSigned? r1 with
    | none => none
    | some (a, r2) =>
      match dropLit ",\"diastolic\":".data r2 with
      | none => none
      | some r3 =>
        match parseSigned? r3 with
        | none => none
        | some (b, r4) => if r4 = "\x7d".data then some (a, b) else none

/-- True when the character list is a JSON string literal with no escapes:
a double quote, interior characters that are neither quotes nor backslashes,
and a closing double quote. -/
def isPlainQuoted (cs : List Char) : Bool :=
  match cs with
  | '"' :: rest =>
    rest ≠ [] && rest.getLast? == some '"' && rest.dropLast.all (fun c => c ≠ '"' && c ≠ '\\')
  | _ => false

/-- Modelled fragment of JSON.parse covering the JSON texts this application
stores or receives in value slots: the null literal, decimal number literals,
escape-free string literals, and the canonical blood-pressure object written
by the add-health-data route.  JSON text outside this fragment is reported as
a parse failure. -/
def parseJson (s : String) : Option JsVal :=
  if s = "null" then some .null
  else
    match parseSigned? s.data with
    | some (q, []) => some (.num q)
    | _ =>
      match parseBp? s with
      | some p => some (.bp p.1 p.2)
      | none =>
        if isPlainQuoted s.data then some (.str (String.mk s.data.tail.dropLast))
        else none

/-- Outcome of AIAnalysisService.analyzeSingleReading: a risk level and a
human-readable insight. -/
structure SingleReadingResult where
  riskLevel : String
  insight : String
deriving DecidableEq

/-- The blood-pressure branch of analyzeSingleReading after the value has
been parsed: high above 140/90, moderate above 130/85, else low; reading a
field off a non-object yields undefined, whose comparisons are false. -/
def bpClassify (v : JsVal) : SingleReadingResult :=
  if gtU (sysField v) 140 || gtU (diaField v) 90 then
    ⟨"high", "Elevated blood pressure detected. Consider consulting your healthcare provider."⟩
  else if gtU (sysField v) 130 || gtU (diaField v) 85 then
    ⟨"moderate", "Borderline high blood pressure. Monitor closely."⟩
  else
    ⟨"low", "Blood pressure within normal range."⟩

/-- AIAnalysisService.analyzeSingleReading (src/unnamed/part_002, lines
149-222).  The try/catch around the switch is modelled explicitly: the two
statements that can throw are JSON.parse on an unparseable string and the
field access on a parsed null, and both land in the catch branch, which
leaves riskLevel at its initial low and sets the fallback insight. -/
def analyzeSingleReading (dataType : String) (value : JsVal) : SingleReadingResult :=
  if dataType = "blood_pressure" then
    match value with
    | .str s =>
      match parseJson s with
      | none => ⟨"low", "Unable to analyze this reading."⟩
      | some .null => ⟨"low", "Unable to analyze this reading."⟩
      | some v => bpClassify v
    | .null => ⟨"low", "Unable to analyze this reading."⟩
    | v => bpClassify v
  else if dataType = "blood_sugar" then
    let sugarValue := parseFloatJs value
    if gtU sugarValue 180 then
      ⟨"high", "High blood sugar level detected. Monitor symptoms and consider medical advice."⟩
    else if gtU sugarValue 140 then
      ⟨"moderate", "Elevated blood sugar level. Watch your carbohydrate intake."⟩
    else
      ⟨"low", "Blood sugar within target range."⟩
  else if dataType = "heart_rate" then
    let hrValue := parseFloatJs value
    if gtU hrValue 100 then
      ⟨"moderate", "Elevated heart rate. Consider rest and hydration."⟩
    else if ltU hrValue 60 then
      ⟨"moderate", "Low heart rate. Monitor for symptoms like dizziness."⟩
    else
      ⟨"low", "Heart rate within normal range."⟩
  else if dataType = "cholesterol" then
    let cholValue := parseFloatJs value
    if gtU cholValue 240 then
      ⟨"high", "High cholesterol level. Important to discuss with healthcare provider."⟩
    else if gtU cholValue 200 then
      ⟨"moderate", "Borderline high cholesterol. Consider dietary changes."⟩
    else
      ⟨"low", "Cholesterol level within desirable range."⟩
  else if dataType = "weight" then
    match parseFloatJs value with
    | some q => ⟨"low", "Current weight: " ++ toString q ++ " kg. Monitor for healthy BMI."⟩
    | none => ⟨"low", "Current weight: NaN kg. Monitor for healthy BMI."⟩
  else
    ⟨"low", "Data recorded successfully."⟩

/-- The four-tier blood-pressure scale of getRiskLevel: critical above
180/120, high above 140/90, moderate above 130/85, else low. -/
def bpRisk4 (v : JsVal) : String :=
  if gtU (sysField v) 180 || gtU (diaField v) 120 then "critical"
  else if gtU (sysField v) 140 || gtU (diaField v) 90 then "high"
  else if gtU (sysField v) 130 || gtU (diaField v) 85 then "moderate"
  else "low"

/-- getRiskLevel (src/backend/services/emailService.js, lines 713-744):
falsy values are low; blood pressure uses the four-tier scale; blood sugar
is critical above 240, high above 180, moderate above 140; heart rate is
high outside 50..120, moderate outside 60..100; unknown types are low.  The
catch around the switch (unparseable blood-pressure JSON, field access on a
parsed null) returns low. -/
def getRiskLevel (dataType : String) (value : JsVal) : String :=
  if jsFalsy value then "low"
  else if dataType = "blood_pressure" then
    match value with
    | .str s =>
      match parseJson s with
      | none => "low"
      | some .null => "low"
      | some v => bpRisk4 v
    | .null => "low"
    | v => bpRisk4 v
  else if dataType = "blood_sugar" then
    let sugar := parseFloatJs value
    if gtU sugar 240 then "critical"
    else if gtU sugar 180 then "high"
    else if gtU sugar 140 then "moderate"
    else "low"
  else if dataType = "heart_rate" then
    let hr := parseFloatJs value
    if gtU hr 120 || ltU hr 50 then "high"
    else if gtU hr 100 || ltU hr 60 then "moderate"
    else "low"
  else "low"

/-- A medication row as calculateMedicationAdherence queries it. -/
structure Medication where
  patientId : ℕ
  isActive : Bool
deriving DecidableEq

/-- A reminder row as calculateMedicationAdherence queries it;
scheduledFor is a timestamp in milliseconds. -/
structure Reminder where
  patientId : ℕ
  rType : String
  isCompleted : Bool
  scheduledFor : ℤ
deriving DecidableEq

/-- AIAnalysisService.calculateMedicationAdherence (src/unnamed/part_002,
lines 18-50).  The two store queries are modelled as filters over the full
medication and reminder tables; now is the current time in milliseconds.
With at least one active medication the expected count is positive, so the
division can never produce NaN and the isNaN fallback of the source is
unreachable. -/
def calculateMedicationAdherence (patientId : ℕ) (now : ℤ)
    (allMeds : List Medication) (allRems : List Reminder) : ℤ :=
  let medications := allMeds.filter (fun m => m.patientId == patientId && m.isActive)
  if medications.length = 0 then 100
  else
    let sevenDaysAgo : ℤ := now - 7 * 24 * 60 * 60 * 1000
    let reminders := allRems.filter (fun r =>
      r.patientId == patientId && r.rType == "medication" && r.isCompleted
        && decide (sevenDaysAgo ≤ r.scheduledFor))
    let totalExpected : ℚ := (medications.length : ℚ) * 7
    let actualTaken : ℚ := (reminders.length : ℚ)
    min 100 (round (actualTaken / totalExpected * 100))

/-- Result of analyzeHealthTrends: the insufficient-data short-circuit
carries no regression fields, so those are optional.  The source stores
slope and percentageChange as display strings via toFixed; here the exact
rational values are kept and rounding is applied where a claim speaks about
the displayed number. -/
structure TrendResult where
  trend : String
  confidence : String
  slope : Option ℚ
  percentageChange : Option ℚ
  dataPoints : Option ℕ
deriving DecidableEq

/-- Sum of a list of rationals as the source's reduce computes it. -/
def jsSum (l : List ℚ) : ℚ := l.foldl (· + ·) 0

/-- The least-squares slope analyzeHealthTrends computes for a value series
against indices 0..n-1:  (n·Σxy − Σx·Σy) / (n·Σx² − (Σx)²). -/
def lsSlope (values : List ℚ) : ℚ :=
  let n : ℚ := (values.length : ℚ)
  let x : List ℚ := (List.range values.length).map (fun i => (i : ℚ))
  let sumX := jsSum x
  let sumY := jsSum values
  let sumXY := jsSum ((x.zip values).map (fun p => p.1 * p.2))
  let sumX2 := jsSum (x.map (fun xi => xi * xi))
  (n * sumXY - sumX * sumY) / (n * sumX2 - sumX * sumX)

/-- analyzeHealthTrends (src/client/src/pages/Medications.jsx, lines
854-897), over the value series of the readings (the source maps each
reading to its numeric value before computing; its timestamps variable is
never used).  Fewer than 3 points short-circuits to insufficient_data with
low confidence; otherwise the trend is classified by the least-squares
slope against thresholds 0.1 and −0.1, percentageChange is
(last − first) / first × 100, and confidence is high for 7 or more points,
else medium. -/
def analyzeHealthTrends (values : List ℚ) : TrendResult :=
  if values.length < 3 then
    ⟨"insufficient_data", "low", none, none, none⟩
  else
    let slope := lsSlope values
    let trend := if slope > 1/10 then "increasing"
      else if slope < -(1/10) then "decreasing"
      else "stable"
    let firstValue := values.headI
    let lastValue := values.getLastI
    let percentageChange := (lastValue - firstValue) / firstValue * 100
    ⟨trend, if values.length ≥ 7 then "high" else "medium",
      some slope, some percentageChange, some values.length⟩

/-- Result of generateHealthPredictions: either the insufficient-data
report or a prediction with the rounded predicted value and the trend
fields it passes through. -/
inductive PredictionResult where
  | insufficientData : PredictionResult
  | prediction (predictedValue : ℚ) (confidence : String) (trend : String) : PredictionResult
deriving DecidableEq

/-- Rounding to two decimal places as Math.round(x * 100) / 100 does. -/
def round2 (q : ℚ) : ℚ := (round (q * 100) : ℚ) / 100

/-- generateHealthPredictions (src/client/src/pages/Medications.jsx, lines
990-1035), over the time-ascending value series of the fetched readings.
Fewer than 7 points reports insufficient_data with low confidence;
otherwise the baseline is the average of the last 7 values, adjusted by +5%
when the trend over the last 14 points is increasing and by −5% when it is
decreasing, and rounded to two decimal places. -/
def generateHealthPredictions (values : List ℚ) : PredictionResult :=
  if values.length < 7 then
    .insufficientData
  else
    let recentValues := values.drop (values.length - 7)
    let average := jsSum recentValues / (recentValues.length : ℚ)
    let trend := analyzeHealthTrends (values.drop (values.length - 14))
    let predictedValue :=
      if trend.trend = "increasing" then average * (105 / 100)
      else if trend.trend = "decreasing" then average * (95 / 100)
      else average
    .prediction (round2 predictedValue) trend.confidence trend.trend

/-- A recommendation produced by generatePersonalizedRecommendations. -/
structure Recommendation where
  category : String
  priority : String
  message : String
  action : String
deriving DecidableEq

/-- The priorityOrder map of the sort comparator: high 3, medium 2, low 1. -/
def priorityOrder (p : String) : ℤ :=
  if p = "high" then 3 else if p = "medium" then 2 else if p = "low" then 1 else 0

/-- Inserts a recommendation into an already priority-descending list,
after every element of priority at least its own: the position a stable
descending sort gives an element arriving after those already placed. -/
def insertDesc (r : Recommendation) : List Recommendation → List Recommendation
  | [] => [r]
  | x :: xs =>
    if priorityOrder x.priority < priorityOrder r.priority then r :: x :: xs
    else x :: insertDesc r xs

/-- The sort at the end of generatePersonalizedRecommendations: a stable
descending sort by priorityOrder, as the comparator
priorityOrder(b) − priorityOrder(a) under the stable Array.prototype.sort
produces. -/
def sortByPriorityDesc (l : List Recommendation) : List Recommendation :=
  l.foldl (fun acc r => insertDesc r acc) []

/-- A health reading as the recommendation generators consume it. -/
structure Reading where
  dataType : String
  value : JsVal
deriving DecidableEq

/-- The mean blood-sugar value generatePersonalizedRecommendations computes:
the average of the numeric values of the blood_sugar readings, or 0 when
there are none. -/
def avgBloodSugar (recentData : List Reading) : ℚ :=
  let bloodSugarReadings := recentData.filter (fun d => d.dataType == "blood_sugar")
  if bloodSugarReadings.length > 0 then
    jsSum (bloodSugarReadings.map (fun d => (parseFloatJs d.value).getD 0))
      / (bloodSugarReadings.length : ℚ)
  else 0

/-- The elevated blood-pressure test of generatePersonalizedRecommendations:
JSON.parse of the stored value (the canonical pair written by the route,
modelled structurally) read for systolic above 140 or diastolic above 90. -/
def isHighBpReading (d : Reading) : Bool :=
  gtU (sysField d.value) 140 || gtU (diaField d.value) 90

/-- The list generatePersonalizedRecommendations builds before sorting, in
push order: the diabetes diet item, the hypertension lifestyle item, the
low-activity item, then the low-adherence medication item. -/
def buildPersonalizedRecommendations (conditions : List String)
    (recentData : List Reading) (adherence : ℤ) : List Recommendation :=
  (if "diabetes" ∈ conditions ∧ avgBloodSugar recentData > 140 then
    [⟨"diet", "high", "Consider reducing carbohydrate intake and increasing fiber",
      "Consult with dietitian for meal planning"⟩]
  else []) ++
  (if "hypertension" ∈ conditions ∧
      (recentData.filter (fun d => d.dataType == "blood_pressure")).countP
        (fun d => isHighBpReading d) > 0 then
    [⟨"lifestyle", "medium", "Reduce sodium intake and practice stress management",
      "Aim for 30 minutes of moderate exercise daily"⟩]
  else []) ++
  (if (recentData.filter (fun d => d.dataType == "activity_level")).length < 3 then
    [⟨"activity", "medium", "Increase physical activity levels",
      "Aim for 150 minutes of moderate exercise per week"⟩]
  else []) ++
  (if adherence < 80 then
    [⟨"medication", "high", "Improve medication adherence for better outcomes",
      "Set up medication reminders and use pill organizers"⟩]
  else [])

/-- generatePersonalizedRecommendations (src/client/src/pages/
Medications.jsx, lines 1059-1122): the pushed items sorted descending by
priority with the stable sort; the adherence value it fetches through
calculateMedicationAdherence is passed in by the caller of this pure
core. -/
def generatePersonalizedRecommendations (conditions : List String)
    (recentData : List Reading) (adherence : ℤ) : List Recommendation :=
  sortByPriorityDesc (buildPersonalizedRecommendations conditions recentData adherence)

/-- The riskLevel column type declared on the HealthData model
(src/backend/models/HealthData.js, line 45): ENUM of exactly these four
values. -/
def riskLevelEnum : List String := ["low", "moderate", "high", "critical"]

/-- How the add-health-data route's analysis step can end: the analysis
pipeline succeeds; the pipeline's own store access fails so
analyzeHealthData returns its catch fallback; or the route-level await
fails (the 10-second analysis timeout, or a rejected update), landing in
the route's catch. -/
inductive AnalysisOutcome where
  | success : AnalysisOutcome
  | serviceFallback : AnalysisOutcome
  | routeFailure : AnalysisOutcome
deriving DecidableEq

/-- The riskLevel the add-health-data route (src/backend/routes/
healthData.js, lines 61-108) persists on the created reading: on success it
stores the analysis pipeline's risk level, which analyzeHealthData takes
from analyzeSingleReading on the stored dataType and value; when
analyzeHealthData hits its own catch it reports low; when the route's
analysis await fails the route's catch stores the literal string unknown. -/
def persistedRiskLevel (outcome : AnalysisOutcome) (dataType : String)
    (value : JsVal) : String :=
  match outcome with
  | .success => (analyzeSingleReading dataType value).riskLevel
  | .serviceFallback => "low"
  | .routeFailure => "unknown"

/-- Two-digit zero-padded decimal rendering of an hour or minute count. -/
def pad2 (n : ℕ) : String :=
  if n < 10 then "0" ++ toString n else toString n

/-- The HH:MM wall-clock string checkDailyUpdates builds with
toTimeString().substring(0, 5). -/
def currentTimeHHMM (hour minute : ℕ) : String :=
  pad2 hour ++ ":" ++ pad2 minute

/-- One entry of the scheduler's patient-schedule cache: the patient id and
the raw preferredEmailTime string loaded from the store.  The Patient model
declares preferredEmailTime as a TIME column (HH:MM:SS, default 09:00:00)
and the settings routes validate and store HH:MM:SS strings. -/
structure PatientSched where
  pid : ℕ
  emailTime : String
deriving DecidableEq

/-- The patient-selection core of EmailScheduler.checkDailyUpdates
(src/backend/services/emailScheduler.js, lines 261-295): outside 6:00-21:59
the tick returns early; otherwise it selects the cached patients whose
stored preferredEmailTime string equals, character for character, the HH:MM
wall-clock string.  Every selected patient then receives sendDailyUpdate,
which builds the adherence and goal-progress context and calls
sendMotivationalEmail. -/
def checkDailyUpdatesSelection (schedules : List PatientSched)
    (hour minute : ℕ) : List PatientSched :=
  if hour < 6 ∨ 22 ≤ hour then []
  else schedules.filter (fun s => s.emailTime == currentTimeHHMM hour minute)

/-- Truncation of a stored HH:MM:SS time to minute resolution, as the claim
describes and as the profile display code (preferredEmailTime.slice(0, 5))
performs elsewhere in the source. -/
def truncToMinute (t : String) : String := String.mk (t.data.take 5)

/-- A HealthData row as checkAndSendAlerts reads and updates it: its id,
owner, cached risk level, recording timestamp in milliseconds, and the
alertSent flag the scheduler sets after a delivered alert. -/
structure AlertReading where
  rid : ℕ
  patientId : ℕ
  riskLevel : String
  recordedAt : ℤ
  alertSent : Bool
deriving DecidableEq

/-- What one sendHealthAlert call reports back: a real delivery, a
simulated send, or an error.  Only a real delivery makes the scheduler mark
the reading. -/
inductive SendOutcome where
  | delivered : SendOutcome
  | simulated : SendOutcome
  | failed : SendOutcome
deriving DecidableEq

/-- The where-clause of the checkAndSendAlerts query: this patient's
readings with cached risk high or critical, recorded within the last 24
hours, and not yet flagged alertSent. -/
def isAlertCandidate (pid : ℕ) (now : ℤ) (r : AlertReading) : Bool :=
  r.patientId == pid && (r.riskLevel == "high" || r.riskLevel == "critical")
    && decide (now - 24 * 60 * 60 * 1000 ≤ r.recordedAt) && !r.alertSent

/-- The reading list checkAndSendAlerts iterates over: the matching rows
ordered by recordedAt descending (a stable sort models the store's
ordering) and limited to 3 per tick. -/
def alertCandidates (store : List AlertReading) (pid : ℕ) (now : ℤ) :
    List AlertReading :=
  ((store.filter (isAlertCandidate pid now)).mergeSort
    (fun a b => decide (b.recordedAt ≤ a.recordedAt))).take 3

/-- The store update the scheduler issues after a delivered alert:
alertSent set to true on the row with the given id. -/
def markAlertSent (store : List AlertReading) (i : ℕ) : List AlertReading :=
  store.map (fun r => if r.rid == i then { r with alertSent := true } else r)

/-- EmailScheduler.checkAndSendAlerts (src/backend/services/
emailScheduler.js, lines 357-410) for one patient on one tick: the
candidate list is computed from the store snapshot, then each candidate is
sent an alert in order; when the send reports a real delivery the reading
is immediately marked alertSent, while errored and simulated sends leave it
unmarked.  Returns the updated store and the ids of the readings whose
alerts were delivered, in send order. -/
def checkAndSendAlerts (store : List AlertReading) (pid : ℕ) (now : ℤ)
    (oracle : ℕ → SendOutcome) : List AlertReading × List ℕ :=
  (alertCandidates store pid now).foldl
    (fun acc r =>
      match oracle r.rid with
      | .delivered => (markAlertSent acc.1 r.rid, acc.2 ++ [r.rid])
      | _ => acc)
    (store, [])

/-- One alert-pass tick: which patient is being processed, the wall-clock
time, and how the notification sink answers each send on this tick. -/
structure AlertTick where
  pid : ℕ
  now : ℤ
  oracle : ℕ → SendOutcome

/-- A run of alert passes across successive ticks, threading the store and
concatenating the per-tick delivered-alert logs. -/
def runAlertTicks (store : List AlertReading) :
    List AlertTick → List AlertReading × List ℕ
  | [] => (store, [])
  | t :: ts =>
    let p := checkAndSendAlerts store t.pid t.now t.oracle
    let q := runAlertTicks p.1 ts
    (q.1, p.2 ++ q.2)

/-- The reading with this id is flagged alertSent in the store. -/
def sentFlag (store : List AlertReading) (i : ℕ) : Prop :=
  ∀ r ∈ store, r.rid = i → r.alertSent = true

/-- Auxiliary: the three-tier blood-pressure branch of analyzeSingleReading
only ever reports low, moderate or high. -/
theorem bpClassify_riskLevel (v : JsVal) :
    (bpClassify v).riskLevel = "low" ∨ (bpClassify v).riskLevel = "moderate"
      ∨ (bpClassify v).riskLevel = "high" := by
  unfold bpClassify
  split_ifs <;> simp

/-- C1 counterexample: at the blood-pressure pair 200/130 the single-reading
classifier of the analysis service reports high, not critical, although
systolic exceeds 180, so the claim is false of that classifier. -/
theorem C1_counterexample :
    (180 : ℚ) < 200
    ∧ (analyzeSingleReading "blood_pressure" (JsVal.bp 200 130)).riskLevel = "high"
    ∧ "high" ≠ "critical" := by
  exact ⟨by norm_num, by decide, by decide⟩

/-- C1 amended: the email-service classifier getRiskLevel implements the
claimed four-tier rule exactly (critical iff systolic>180 or diastolic>120,
then high above 140/90, moderate above 130/85, else low, all strict), while
the analysis-service classifier analyzeSingleReading has no critical tier
for blood pressure and never returns critical. -/
theorem C1_blood_pressure_four_tiers (s d : ℚ) :
    (getRiskLevel "blood_pressure" (JsVal.bp s d) = "critical" ↔ 180 < s ∨ 120 < d)
    ∧ (¬(180 < s ∨ 120 < d) →
        (getRiskLevel "blood_pressure" (JsVal.bp s d) = "high" ↔ 140 < s ∨ 90 < d))
    ∧ (¬(180 < s ∨ 120 < d) → ¬(140 < s ∨ 90 < d) →
        (getRiskLevel "blood_pressure" (JsVal.bp s d) = "moderate" ↔ 130 < s ∨ 85 < d))
    ∧ (¬(180 < s ∨ 120 < d) → ¬(140 < s ∨ 90 < d) → ¬(130 < s ∨ 85 < d) →
        getRiskLevel "blood_pressure" (JsVal.bp s d) = "low")
    ∧ (analyzeSingleReading "blood_pressure" (JsVal.bp s d)).riskLevel ≠ "critical" := by
  have hg : getRiskLevel "blood_pressure" (JsVal.bp s d) = bpRisk4 (JsVal.bp s d) := rfl
  have ha : analyzeSingleReading "blood_pressure" (JsVal.bp s d) = bpClassify (JsVal.bp s d) :=
    rfl
  rw [hg, ha]
  unfold bpRisk4 bpClassify
  simp only [sysField, diaField, gtU, Bool.or_eq_true, decide_eq_true_eq]
  split_ifs <;> refine ⟨?_, ?_, ?_, ?_, ?_⟩ <;> simp_all

/-- C1 amended, instantiated: the normal reading 120/80 is classified low
by getRiskLevel. -/
theorem C1_blood_pressure_four_tiers_witness :
    getRiskLevel "blood_pressure" (JsVal.bp 120 80) = "low" :=
  (C1_blood_pressure_four_tiers 120 80).2.2.2.1 (by norm_num) (by norm_num) (by norm_num)

/-- C2: when the add-health-data route's analysis await fails (for example
the 10-second timeout), its catch persists the literal riskLevel unknown,
which is outside the ENUM the HealthData model declares and differs from a
fresh classification of the stored reading (high for blood sugar 200); on
success the persisted level does equal the fresh classification. -/
theorem C2_unknown_risk_level_on_failure :
    persistedRiskLevel .routeFailure "blood_sugar" (JsVal.num 200) = "unknown"
    ∧ "unknown" ∉ riskLevelEnum
    ∧ (analyzeSingleReading "blood_sugar" (JsVal.num 200)).riskLevel = "high"
    ∧ persistedRiskLevel .success "blood_sugar" (JsVal.num 200)
      = (analyzeSingleReading "blood_sugar" (JsVal.num 200)).riskLevel := by
  exact ⟨rfl, by decide, by decide, rfl⟩

/-- C3: the Patient model's default preferredEmailTime 09:00:00 truncated to
minute resolution equals the 09:00 wall-clock string, and 9 o'clock is
inside the scheduler's permitted hours, yet checkDailyUpdates selects no
patient, because it compares the untruncated HH:MM:SS string against the
HH:MM clock string; so sendMotivationalEmail is never invoked for that
patient. -/
theorem C3_daily_update_never_fires :
    truncToMinute "09:00:00" = currentTimeHHMM 9 0
    ∧ ¬(9 < 6 ∨ 22 ≤ 9)
    ∧ checkDailyUpdatesSelection [⟨1, "09:00:00"⟩] 9 0 = [] := by
  exact ⟨by decide, by decide, by decide⟩

/-- C6: with fewer than 3 data points, trend analysis short-circuits to
direction insufficient_data and confidence low, whatever the values are. -/
theorem C6_insufficient_data (values : List ℚ) (h : values.length < 3) :
    analyzeHealthTrends values = ⟨"insufficient_data", "low", none, none, none⟩ := by
  unfold analyzeHealthTrends
  simp [h]

/-- C6 instantiated at a concrete 2-point series. -/
theorem C6_insufficient_data_witness :
    analyzeHealthTrends [135, 210] = ⟨"insufficient_data", "low", none, none, none⟩ :=
  C6_insufficient_data [135, 210] (by decide)

/-- C10: the single-reading classifier is total with risk level always one
of low, moderate, high; an unparseable blood-pressure string lands in the
catch and yields low with the fallback insight; an unrecognized dataType
yields low with the default insight. -/
theorem C10_single_reading_total (dataType : String) (value : JsVal) :
    ((analyzeSingleReading dataType value).riskLevel = "low"
      ∨ (analyzeSingleReading dataType value).riskLevel = "moderate"
      ∨ (analyzeSingleReading dataType value).riskLevel = "high")
    ∧ (∀ s, dataType = "blood_pressure" → value = JsVal.str s → parseJson s = none →
        analyzeSingleReading dataType value = ⟨"low", "Unable to analyze this reading."⟩)
    ∧ (dataType ≠ "blood_pressure" → dataType ≠ "blood_sugar" → dataType ≠ "heart_rate" →
        dataType ≠ "cholesterol" → dataType ≠ "weight" →
        analyzeSingleReading dataType value = ⟨"low", "Data recorded successfully."⟩) := by
  refine ⟨?_, ?_, ?_⟩
  · unfold analyzeSingleReading
    split_ifs with h1 h2 h3 h4 h5
    · cases value with
      | str s =>
        cases hp : parseJson s with
        | none => simp [hp]
        | some v =>
          cases v with
          | null => simp [hp]
          | str t => simpa [hp] using bpClassify_riskLevel (JsVal.str t)
          | num q => simpa [hp] using bpClassify_riskLevel (JsVal.num q)
          | bp a b => simpa [hp] using bpClassify_riskLevel (JsVal.bp a b)
      | null => simp
      | num q => simpa using bpClassify_riskLevel (JsVal.num q)
      | bp a b => simpa using bpClassify_riskLevel (JsVal.bp a b)
    · dsimp only
      split_ifs <;> simp
    · dsimp only
      split_ifs <;> simp
    · dsimp only
      split_ifs <;> simp
    · cases parseFloatJs value <;> simp
    · simp
  · intro s h1 h2 hp
    subst h1
    subst h2
    simp [analyzeSingleReading, hp]
  · intro h1 h2 h3 h4 h5
    unfold analyzeSingleReading
    simp [h1, h2, h3, h4, h5]

/-- C10 instantiated: an unrecognized dataType and an unparseable
blood-pressure string both fall back as claimed. -/
theorem C10_single_reading_total_witness :
    analyzeSingleReading "steps" (JsVal.str "abc")
      = ⟨"low", "Data recorded successfully."⟩
    ∧ analyzeSingleReading "blood_pressure" (JsVal.str "abc")
      = ⟨"low", "Unable to analyze this reading."⟩ :=
  ⟨(C10_single_reading_total "steps" (JsVal.str "abc")).2.2 (by decide) (by decide)
      (by decide) (by decide) (by decide),
    (C10_single_reading_total "blood_pressure" (JsVal.str "abc")).2.1 "abc" rfl rfl (by decide)⟩

/-- C5: adherence is 100 with no active medications; with at least one it is
min(100, round(actual / (activeCount × 7) × 100)) over the completed
medication reminders of the trailing 7-day window; and the result is always
an integer between 0 and 100.  (With a positive expected count the division
can never produce NaN, so the isNaN-to-0 fallback of the source never
fires.) -/
theorem C5_adherence (patientId : ℕ) (now : ℤ)
    (allMeds : List Medication) (allRems : List Reminder) :
    ((allMeds.filter (fun m => m.patientId == patientId && m.isActive)).length = 0 →
      calculateMedicationAdherence patientId now allMeds allRems = 100)
    ∧ ((allMeds.filter (fun m => m.patientId == patientId && m.isActive)).length ≠ 0 →
      calculateMedicationAdherence patientId now allMeds allRems
        = min 100 (round
            (((allRems.filter (fun r =>
                r.patientId == patientId && r.rType == "medication" && r.isCompleted
                  && decide (now - 7 * 24 * 60 * 60 * 1000 ≤ r.scheduledFor))).length : ℚ)
              / (((allMeds.filter
                    (fun m => m.patientId == patientId && m.isActive)).length : ℚ) * 7)
              * 100)))
    ∧ 0 ≤ calculateMedicationAdherence patientId now allMeds allRems
    ∧ calculateMedicationAdherence patientId now allMeds allRems ≤ 100 := by
  unfold calculateMedicationAdherence
  by_cases h : (allMeds.filter (fun m => m.patientId == patientId && m.isActive)).length = 0
  · simp [h]
  · refine ⟨fun hc => absurd hc h, fun _ => by simp [h], ?_, ?_⟩
    · simp only [h, if_false]
      refine le_min (by norm_num) ?_
      rw [round_eq]
      refine Int.floor_nonneg.mpr ?_
      have hpos : (0 : ℚ) <
          ((allMeds.filter (fun m => m.patientId == patientId && m.isActive)).length : ℚ) := by
        exact_mod_cast Nat.pos_of_ne_zero h
      positivity
    · simp only [h, if_false]
      exact min_le_left _ _

/-- C5 instantiated: a patient with no medications at all scores 100. -/
theorem C5_adherence_witness :
    calculateMedicationAdherence 1 0 [] [] = 100 :=
  (C5_adherence 1 0 [] []).1 (by decide)

/-- C7: for at least 3 points the trend direction is classified from the
least-squares slope of value against index with thresholds 0.1 and −0.1,
confidence is high for 7 or more points and medium otherwise, and
percentageChange is (last − first) / first × 100; the 7-point ascending
series 130..150 comes out increasing with high confidence and a
percentageChange of 200/13, which displays as 15.4. -/
theorem C7_trend_least_squares (values : List ℚ) (h3 : 3 ≤ values.length) :
    ((analyzeHealthTrends values).trend
      = (if lsSlope values > 1/10 then "increasing"
         else if lsSlope values < -(1/10) then "decreasing" else "stable")
    ∧ (analyzeHealthTrends values).confidence
      = (if 7 ≤ values.length then "high" else "medium")
    ∧ (analyzeHealthTrends values).percentageChange
      = some ((values.getLastI - values.headI) / values.headI * 100))
    ∧ (analyzeHealthTrends [130, 132, 135, 138, 142, 145, 150]
      = ⟨"increasing", "high", some (651/196), some (200/13), some 7⟩
    ∧ round ((200 : ℚ) / 13 * 10) = 154) := by
  constructor
  · have hlt : ¬ values.length < 3 := not_lt.mpr h3
    unfold analyzeHealthTrends
    simp [hlt, ge_iff_le]
  · constructor
    · have hr : List.range 7 = [0, 1, 2, 3, 4, 5, 6] := rfl
      have hs : lsSlope [130, 132, 135, 138, 142, 145, 150] = 651/196 := by
        unfold lsSlope jsSum
        rw [show ([130, 132, 135, 138, 142, 145, 150] : List ℚ).length = 7 from rfl, hr]
        norm_num
      unfold analyzeHealthTrends
      rw [show ([130, 132, 135, 138, 142, 145, 150] : List ℚ).length = 7 from rfl]
      norm_num [hs, List.headI, List.getLastI]
    · rw [round_eq]
      norm_num

/-- C7 instantiated at a concrete 3-point series. -/
theorem C7_trend_least_squares_witness :
    (analyzeHealthTrends [1, 2, 3]).confidence
      = (if 7 ≤ ([1, 2, 3] : List ℚ).length then "high" else "medium") :=
  ((C7_trend_least_squares [1, 2, 3] (by decide)).1).2.1

/-- C8 counterexample: a 5-point series, which the claim says is enough for
a forecast, is reported as insufficient data: the forecaster's gate is at 7
points, not 5. -/
theorem C8_counterexample :
    generateHealthPredictions [100, 100, 100, 100, 100] = .insufficientData
    ∧ ¬(([100, 100, 100, 100, 100] : List ℚ).length < 5) := by
  exact ⟨by decide, by decide⟩

/-- C8 amended: the forecaster reports insufficient data exactly when the
series has fewer than 7 points; with 7 or more it returns the average of
the most recent 7 values, multiplied by 1.05 when the trend over the last
14 points is increasing and by 0.95 when decreasing, rounded to two decimal
places, alongside that trend's direction and confidence.  The result is
always one of these two shapes, never a propagated failure. -/
theorem C8_forecast_gate (values : List ℚ) :
    (generateHealthPredictions values = .insufficientData ↔ values.length < 7)
    ∧ (7 ≤ values.length →
      generateHealthPredictions values
        = .prediction
            (round2 (jsSum (values.drop (values.length - 7)) / 7
              * (if (analyzeHealthTrends (values.drop (values.length - 14))).trend
                    = "increasing" then 105 / 100
                 else if (analyzeHealthTrends (values.drop (values.length - 14))).trend
                    = "decreasing" then 95 / 100
                 else 1)))
            (analyzeHealthTrends (values.drop (values.length - 14))).confidence
            (analyzeHealthTrends (values.drop (values.length - 14))).trend) := by
  constructor
  · unfold generateHealthPredictions
    split_ifs with h
    · simp [h]
    · simp [h]
  · intro h7
    have hlt : ¬ values.length < 7 := not_lt.mpr h7
    have hlen : (values.drop (values.length - 7)).length = 7 := by
      rw [List.length_drop]
      omega
    unfold generateHealthPredictions
    simp only [hlt, if_false]
    rw [hlen]
    split_ifs with h1 h2 <;> [skip; skip; ring_nf] <;> ring_nf

/-- C8 amended, instantiated: a 7-point series is past the gate and yields
a prediction. -/
theorem C8_forecast_gate_witness :
    7 ≤ ([100, 100, 100, 100, 100, 100, 100] : List ℚ).length
    ∧ generateHealthPredictions [100, 100, 100, 100, 100, 100, 100]
      ≠ .insufficientData := by
  refine ⟨by decide, ?_⟩
  rw [(C8_forecast_gate [100, 100, 100, 100, 100, 100, 100]).2 (by decide)]
  simp

/-- Membership through insertDesc: exactly the inserted element is added. -/
theorem mem_insertDesc {r a : Recommendation} {l : List Recommendation} :
    a ∈ insertDesc r l ↔ a = r ∨ a ∈ l := by
  induction l with
  | nil => simp [insertDesc]
  | cons x xs ih =>
    have hdef : insertDesc r (x :: xs)
        = if priorityOrder x.priority < priorityOrder r.priority then r :: x :: xs
          else x :: insertDesc r xs := rfl
    rw [hdef]
    split_ifs with h
    · simp only [List.mem_cons]
    · simp only [List.mem_cons, ih]
      tauto

/-- insertDesc keeps a priority-descending list priority-descending. -/
theorem pairwise_insertDesc {r : Recommendation} {l : List Recommendation}
    (hl : l.Pairwise (fun a b => priorityOrder b.priority ≤ priorityOrder a.priority)) :
    (insertDesc r l).Pairwise
      (fun a b => priorityOrder b.priority ≤ priorityOrder a.priority) := by
  induction l with
  | nil => simp [insertDesc]
  | cons x xs ih =>
    rw [List.pairwise_cons] at hl
    obtain ⟨hx, hxs⟩ := hl
    unfold insertDesc
    split_ifs with h
    · refine List.Pairwise.cons ?_ (List.Pairwise.cons hx hxs)
      intro b hb
      rcases List.mem_cons.mp hb with hbx | hbxs
      · subst hbx
        exact le_of_lt h
      · exact le_trans (hx b hbxs) (le_of_lt h)
    · refine List.Pairwise.cons ?_ (ih hxs)
      intro b hb
      rcases mem_insertDesc.mp hb with hbr | hbl
      · subst hbr
        exact not_lt.mp h
      · exact hx b hbl

/-- Stability of one insertion: on a priority-descending list, the elements
of any fixed priority keep their order, with the newly inserted element
landing after the earlier ones of its own priority. -/
theorem filter_insertDesc (p : String) (r : Recommendation) (l : List Recommendation)
    (hl : l.Pairwise (fun a b => priorityOrder b.priority ≤ priorityOrder a.priority)) :
    (insertDesc r l).filter (fun a => a.priority == p)
      = l.filter (fun a => a.priority == p)
        ++ (if r.priority == p then [r] else []) := by
  induction l with
  | nil =>
    by_cases hrp : (r.priority == p) = true <;>
      simp [insertDesc, List.filter_cons, hrp]
  | cons x xs ih =>
    rw [List.pairwise_cons] at hl
    obtain ⟨hx, hxs⟩ := hl
    have hdef : insertDesc r (x :: xs)
        = if priorityOrder x.priority < priorityOrder r.priority then r :: x :: xs
          else x :: insertDesc r xs := rfl
    by_cases h : priorityOrder x.priority < priorityOrder r.priority
    · rw [hdef, if_pos h]
      by_cases hrp : (r.priority == p) = true
      · have hnil : (x :: xs).filter (fun a => a.priority == p) = [] := by
          rw [List.filter_eq_nil_iff]
          intro a ha hap
          have hap' : a.priority = p := by
            simpa using hap
          have hrp' : r.priority = p := by
            simpa using hrp
          have hle : priorityOrder a.priority ≤ priorityOrder x.priority := by
            rcases List.mem_cons.mp ha with hax | haxs
            · subst hax
              exact le_refl _
            · exact hx a haxs
          rw [hap', ← hrp'] at hle
          exact absurd (lt_of_lt_of_le h hle) (lt_irrefl _)
        simp [List.filter_cons, hrp, hnil]
      · simp [List.filter_cons, hrp]
    · rw [hdef, if_neg h]
      by_cases hxp : (x.priority == p) = true
      · simp [List.filter_cons, hxp, ih hxs]
      · simp [List.filter_cons, hxp, ih hxs]

/-- The stable sort keeps every priority-descending accumulator
priority-descending. -/
theorem pairwise_foldl_insertDesc (l acc : List Recommendation)
    (hacc : acc.Pairwise (fun a b => priorityOrder b.priority ≤ priorityOrder a.priority)) :
    (l.foldl (fun a r => insertDesc r a) acc).Pairwise
      (fun a b => priorityOrder b.priority ≤ priorityOrder a.priority) := by
  induction l generalizing acc with
  | nil => exact hacc
  | cons r rs ih => exact ih _ (pairwise_insertDesc hacc)

/-- Stability of the whole fold: the elements of any fixed priority come
out in accumulator order followed by input order. -/
theorem filter_foldl_insertDesc (p : String) (l acc : List Recommendation)
    (hacc : acc.Pairwise (fun a b => priorityOrder b.priority ≤ priorityOrder a.priority)) :
    (l.foldl (fun a r => insertDesc r a) acc).filter (fun r => r.priority == p)
      = acc.filter (fun r => r.priority == p) ++ l.filter (fun r => r.priority == p) := by
  induction l generalizing acc with
  | nil => simp
  | cons r rs ih =>
    have step := ih (insertDesc r acc) (pairwise_insertDesc hacc)
    simp only [List.foldl_cons] at step ⊢
    rw [step, filter_insertDesc p r acc hacc]
    by_cases hrp : r.priority == p <;> simp [List.filter_cons, hrp]

/-- The sort of generatePersonalizedRecommendations is priority-descending. -/
theorem sortByPriorityDesc_pairwise (l : List Recommendation) :
    (sortByPriorityDesc l).Pairwise
      (fun a b => priorityOrder b.priority ≤ priorityOrder a.priority) :=
  pairwise_foldl_insertDesc l [] (by simp)

/-- The sort of generatePersonalizedRecommendations is stable: filtering
any fixed priority out of the sorted list gives the push-order sublist. -/
theorem sortByPriorityDesc_filter (p : String) (l : List Recommendation) :
    (sortByPriorityDesc l).filter (fun r => r.priority == p)
      = l.filter (fun r => r.priority == p) := by
  unfold sortByPriorityDesc
  simpa using filter_foldl_insertDesc p l [] (by simp)

/-- C9: whenever the computed medication adherence is below 80 the
recommendation output contains the high-priority medication-adherence
recommendation, and the output is always sorted descending by priority
(high before medium before low) with equal-priority items keeping their
push order. -/
theorem C9_adherence_recommendation_sorted (conditions : List String)
    (recentData : List Reading) (patientId : ℕ) (now : ℤ)
    (allMeds : List Medication) (allRems : List Reminder)
    (hadh : calculateMedicationAdherence patientId now allMeds allRems < 80) :
    (⟨"medication", "high", "Improve medication adherence for better outcomes",
        "Set up medication reminders and use pill organizers"⟩ : Recommendation)
      ∈ generatePersonalizedRecommendations conditions recentData
          (calculateMedicationAdherence patientId now allMeds allRems)
    ∧ (generatePersonalizedRecommendations conditions recentData
          (calculateMedicationAdherence patientId now allMeds allRems)).Pairwise
        (fun a b => priorityOrder b.priority ≤ priorityOrder a.priority)
    ∧ ∀ p, (generatePersonalizedRecommendations conditions recentData
          (calculateMedicationAdherence patientId now allMeds allRems)).filter
            (fun r => r.priority == p)
        = (buildPersonalizedRecommendations conditions recentData
            (calculateMedicationAdherence patientId now allMeds allRems)).filter
            (fun r => r.priority == p) := by
  set adh := calculateMedicationAdherence patientId now allMeds allRems with hadhdef
  have hgen : generatePersonalizedRecommendations conditions recentData adh
      = sortByPriorityDesc (buildPersonalizedRecommendations conditions recentData adh) :=
    rfl
  rw [hgen]
  refine ⟨?_, sortByPriorityDesc_pairwise _, fun p => sortByPriorityDesc_filter p _⟩
  have hmem : (⟨"medication", "high", "Improve medication adherence for better outcomes",
      "Set up medication reminders and use pill organizers"⟩ : Recommendation)
      ∈ buildPersonalizedRecommendations conditions recentData adh := by
    unfold buildPersonalizedRecommendations
    simp [hadh]
  have hmf : (⟨"medication", "high", "Improve medication adherence for better outcomes",
      "Set up medication reminders and use pill organizers"⟩ : Recommendation)
      ∈ (buildPersonalizedRecommendations conditions recentData adh).filter
          (fun r => r.priority == "high") :=
    List.mem_filter.mpr ⟨hmem, by decide⟩
  rw [← sortByPriorityDesc_filter "high"
    (buildPersonalizedRecommendations conditions recentData adh)] at hmf
  exact List.mem_of_mem_filter hmf

/-- C9 instantiated: one active medication and no completed reminders give
adherence 0, and the sorted output contains the high-priority
medication-adherence recommendation. -/
theorem C9_adherence_recommendation_sorted_witness :
    (⟨"medication", "high", "Improve medication adherence for better outcomes",
        "Set up medication reminders and use pill organizers"⟩ : Recommendation)
      ∈ generatePersonalizedRecommendations [] []
          (calculateMedicationAdherence 1 0 [⟨1, true⟩] []) :=
  (C9_adherence_recommendation_sorted [] [] 1 0 [⟨1, true⟩] []
    (by norm_num [calculateMedicationAdherence, round_eq])).1

/-- Marking a reading leaves every reading's id unchanged. -/
theorem markAlertSent_map_rid (s : List AlertReading) (i : ℕ) :
    (markAlertSent s i).map (fun r => r.rid) = s.map (fun r => r.rid) := by
  unfold markAlertSent
  rw [List.map_map]
  apply List.map_congr_left
  intro a _
  by_cases ha : a.rid = i <;> simp [ha]

/-- A whole fold of markings leaves every reading's id unchanged. -/
theorem foldl_markAlertSent_map_rid (rs : List AlertReading) (s : List AlertReading) :
    ((rs.foldl (fun t r => markAlertSent t r.rid) s).map (fun r => r.rid))
      = s.map (fun r => r.rid) := by
  induction rs generalizing s with
  | nil => rfl
  | cons a as ih =>
    rw [List.foldl_cons, ih, markAlertSent_map_rid]

/-- After marking an id, that id's readings carry the alertSent flag. -/
theorem sentFlag_markAlertSent_self (s : List AlertReading) (i : ℕ) :
    sentFlag (markAlertSent s i) i := by
  intro r hr hrid
  rcases List.mem_map.mp hr with ⟨x, hx, hxe⟩
  by_cases h : (x.rid == i) = true
  · rw [if_pos h] at hxe
    rw [← hxe]
  · rw [if_neg h] at hxe
    rw [← hxe] at hrid
    exact absurd hrid (by simpa using h)

/-- Marking one id preserves the flag on any other already-flagged id. -/
theorem sentFlag_markAlertSent_mono {s : List AlertReading} {j : ℕ}
    (hs : sentFlag s j) (i : ℕ) : sentFlag (markAlertSent s i) j := by
  intro r hr hrid
  rcases List.mem_map.mp hr with ⟨x, hx, hxe⟩
  by_cases h : (x.rid == i) = true
  · rw [if_pos h] at hxe
    rw [← hxe]
  · rw [if_neg h] at hxe
    subst hxe
    exact hs x hx hrid

/-- A fold of markings preserves every already-set flag. -/
theorem sentFlag_foldl_mono {s : List AlertReading} {j : ℕ} (rs : List AlertReading)
    (hs : sentFlag s j) :
    sentFlag (rs.foldl (fun t x => markAlertSent t x.rid) s) j := by
  induction rs generalizing s with
  | nil => exact hs
  | cons a as ih =>
    rw [List.foldl_cons]
    exact ih (sentFlag_markAlertSent_mono hs a.rid)

/-- A fold of markings sets the flag of every id it marks. -/
theorem sentFlag_foldl_of_mem (rs : List AlertReading) (r : AlertReading) :
    r ∈ rs → ∀ s : List AlertReading,
      sentFlag (rs.foldl (fun t x => markAlertSent t x.rid) s) r.rid := by
  induction rs with
  | nil =>
    intro h
    cases h
  | cons a as ih =>
    intro hr s
    rw [List.foldl_cons]
    rcases List.mem_cons.mp hr with h | h
    · subst h
      exact sentFlag_foldl_mono as (sentFlag_markAlertSent_self s r.rid)
    · exact ih h (markAlertSent s a.rid)

/-- Every candidate of an alert pass is a store reading whose alertSent
flag is still clear. -/
theorem mem_alertCandidates {store : List AlertReading} {pid : ℕ} {now : ℤ}
    {r : AlertReading} (hr : r ∈ alertCandidates store pid now) :
    r ∈ store ∧ r.alertSent = false := by
  unfold alertCandidates at hr
  have h1 : r ∈ (store.filter (isAlertCandidate pid now)).mergeSort
      (fun a b => decide (b.recordedAt ≤ a.recordedAt)) := List.take_subset _ _ hr
  have h2 : r ∈ store.filter (isAlertCandidate pid now) :=
    (List.mergeSort_perm _ _).mem_iff.mp h1
  have h3 := List.mem_filter.mp h2
  refine ⟨h3.1, ?_⟩
  have h4 := h3.2
  unfold isAlertCandidate at h4
  simp only [Bool.and_eq_true] at h4
  simpa using h4.2

/-- The candidates of an alert pass have pairwise distinct ids whenever the
store does. -/
theorem alertCandidates_rid_nodup {store : List AlertReading} {pid : ℕ} {now : ℤ}
    (h : (store.map (fun r => r.rid)).Nodup) :
    ((alertCandidates store pid now).map (fun r => r.rid)).Nodup := by
  unfold alertCandidates
  have h1 : ((store.filter (isAlertCandidate pid now)).map (fun r => r.rid)).Nodup :=
    List.Nodup.sublist (List.Sublist.map _ (List.filter_sublist store)) h
  have h2 : (((store.filter (isAlertCandidate pid now)).mergeSort
      (fun a b => decide (b.recordedAt ≤ a.recordedAt))).map (fun r => r.rid)).Nodup :=
    (((List.mergeSort_perm _ _)).map _).nodup_iff.mpr h1
  exact List.Nodup.sublist (List.Sublist.map _ (List.take_sublist _ _)) h2

/-- The loop of checkAndSendAlerts in closed form: the store receives one
marking per delivered candidate and the log receives their ids in order. -/
theorem alertFold_spec (oracle : ℕ → SendOutcome) (cands : List AlertReading)
    (st : List AlertReading) (log : List ℕ) :
    cands.foldl (fun acc r =>
        match oracle r.rid with
        | .delivered => (markAlertSent acc.1 r.rid, acc.2 ++ [r.rid])
        | _ => acc) (st, log)
      = ((cands.filter (fun r => oracle r.rid == SendOutcome.delivered)).foldl
          (fun t r => markAlertSent t r.rid) st,
        log ++ (cands.filter (fun r => oracle r.rid == SendOutcome.delivered)).map
          (fun r => r.rid)) := by
  induction cands generalizing st log with
  | nil => simp
  | cons a as ih =>
    cases ho : oracle a.rid with
    | delivered => simp [List.foldl_cons, List.filter_cons, ho, ih]
    | simulated => simp [List.foldl_cons, List.filter_cons, ho, ih]
    | failed => simp [List.foldl_cons, List.filter_cons, ho, ih]

/-- One alert pass in closed form. -/
theorem checkAndSendAlerts_spec (store : List AlertReading) (pid : ℕ) (now : ℤ)
    (oracle : ℕ → SendOutcome) :
    checkAndSendAlerts store pid now oracle
      = (((alertCandidates store pid now).filter
            (fun r => oracle r.rid == SendOutcome.delivered)).foldl
              (fun t r => markAlertSent t r.rid) store,
        ((alertCandidates store pid now).filter
            (fun r => oracle r.rid == SendOutcome.delivered)).map (fun r => r.rid)) := by
  unfold checkAndSendAlerts
  simpa using alertFold_spec oracle (alertCandidates store pid now) store []

/-- Invariants of a multi-tick alert run: ids are preserved, set flags stay
set and block future deliveries, every logged delivery leaves its flag set,
and no id is logged more than once. -/
theorem runAlertTicks_spec (ticks : List AlertTick) :
    ∀ store : List AlertReading, (store.map (fun r => r.rid)).Nodup →
      ((runAlertTicks store ticks).1.map (fun r => r.rid) = store.map (fun r => r.rid))
      ∧ (∀ i, sentFlag store i → sentFlag (runAlertTicks store ticks).1 i)
      ∧ (∀ i, sentFlag store i → i ∉ (runAlertTicks store ticks).2)
      ∧ (∀ i, i ∈ (runAlertTicks store ticks).2 → sentFlag (runAlertTicks store ticks).1 i)
      ∧ (∀ i, (runAlertTicks store ticks).2.count i ≤ 1) := by
  induction ticks with
  | nil =>
    intro store h
    exact ⟨rfl, fun i hi => hi, fun i _ hmem => by simp [runAlertTicks] at hmem,
      fun i hi => absurd hi (by simp [runAlertTicks]), fun i => by simp [runAlertTicks]⟩
  | cons t ts ih =>
    intro store hnd
    have hrun : runAlertTicks store (t :: ts)
        = ((runAlertTicks (checkAndSendAlerts store t.pid t.now t.oracle).1 ts).1,
          (checkAndSendAlerts store t.pid t.now t.oracle).2
            ++ (runAlertTicks (checkAndSendAlerts store t.pid t.now t.oracle).1 ts).2) :=
      rfl
    have hps := checkAndSendAlerts_spec store t.pid t.now t.oracle
    rw [hrun, hps]
    dsimp only
    have hmap1 : ((((alertCandidates store t.pid t.now).filter
          (fun r => t.oracle r.rid == SendOutcome.delivered)).foldl
            (fun u r => markAlertSent u r.rid) store).map (fun r => r.rid))
        = store.map (fun r => r.rid) :=
      foldl_markAlertSent_map_rid _ store
    have hnd1 : ((((alertCandidates store t.pid t.now).filter
          (fun r => t.oracle r.rid == SendOutcome.delivered)).foldl
            (fun u r => markAlertSent u r.rid) store).map (fun r => r.rid)).Nodup := by
      rw [hmap1]
      exact hnd
    obtain ⟨ihmap, ihmono, ihnot, ihsent, ihcount⟩ := ih _ hnd1
    have hdl : ∀ r ∈ (alertCandidates store t.pid t.now).filter
        (fun r => t.oracle r.rid == SendOutcome.delivered),
        r ∈ store ∧ r.alertSent = false :=
      fun r hr => mem_alertCandidates (List.mem_of_mem_filter hr)
    have hd1mem : ∀ i, i ∈ ((alertCandidates store t.pid t.now).filter
        (fun r => t.oracle r.rid == SendOutcome.delivered)).map (fun r => r.rid) →
        ∃ r ∈ (alertCandidates store t.pid t.now).filter
          (fun r => t.oracle r.rid == SendOutcome.delivered), r.rid = i := by
      intro i hi
      rcases List.mem_map.mp hi with ⟨r, hr, hre⟩
      exact ⟨r, hr, hre⟩
    have hF3 : ∀ i, sentFlag store i → i ∉ ((alertCandidates store t.pid t.now).filter
        (fun r => t.oracle r.rid == SendOutcome.delivered)).map (fun r => r.rid) := by
      intro i hflag hi
      rcases hd1mem i hi with ⟨r, hr, hre⟩
      rcases hdl r hr with ⟨hrs, hfalse⟩
      have := hflag r hrs hre
      rw [this] at hfalse
      cases hfalse
    have hF4 : ∀ i, i ∈ ((alertCandidates store t.pid t.now).filter
        (fun r => t.oracle r.rid == SendOutcome.delivered)).map (fun r => r.rid) →
        sentFlag (((alertCandidates store t.pid t.now).filter
          (fun r => t.oracle r.rid == SendOutcome.delivered)).foldl
            (fun u r => markAlertSent u r.rid) store) i := by
      intro i hi
      rcases hd1mem i hi with ⟨r, hr, hre⟩
      rw [← hre]
      exact sentFlag_foldl_of_mem _ r hr store
    have hF5 : ∀ i, sentFlag store i →
        sentFlag (((alertCandidates store t.pid t.now).filter
          (fun r => t.oracle r.rid == SendOutcome.delivered)).foldl
            (fun u r => markAlertSent u r.rid) store) i :=
      fun i hi => sentFlag_foldl_mono _ hi
    have hF6 : (((alertCandidates store t.pid t.now).filter
        (fun r => t.oracle r.rid == SendOutcome.delivered)).map (fun r => r.rid)).Nodup :=
      List.Nodup.sublist (List.Sublist.map _ (List.filter_sublist _))
        (alertCandidates_rid_nodup hnd)
    refine ⟨ihmap.trans hmap1, fun i hi => ihmono i (hF5 i hi), ?_, ?_, ?_⟩
    · intro i hi
      rw [List.mem_append]
      push_neg
      exact ⟨hF3 i hi, ihnot i (hF5 i hi)⟩
    · intro i hi
      rcases List.mem_append.mp hi with hl | hr
      · exact ihmono i (hF4 i hl)
      · exact ihsent i hr
    · intro i
      rw [List.count_append]
      by_cases hmem : i ∈ ((alertCandidates store t.pid t.now).filter
          (fun r => t.oracle r.rid == SendOutcome.delivered)).map (fun r => r.rid)
      · have hc1 : (((alertCandidates store t.pid t.now).filter
            (fun r => t.oracle r.rid == SendOutcome.delivered)).map
              (fun r => r.rid)).count i ≤ 1 :=
          List.nodup_iff_count_le_one.mp hF6 i
        have hnot2 : i ∉ (runAlertTicks (((alertCandidates store t.pid t.now).filter
            (fun r => t.oracle r.rid == SendOutcome.delivered)).foldl
              (fun u r => markAlertSent u r.rid) store) ts).2 :=
          ihnot i (hF4 i hmem)
        have hc2 := List.count_eq_zero.mpr hnot2
        omega
      · have hc1 := List.count_eq_zero.mpr hmem
        have hc2 := ihcount i
        omega

/-- C4: across any sequence of alert-pass ticks, each reading receives at
most one delivered health alert; a reading already flagged alertSent is
never alerted again; and every delivered alert leaves the reading's
alertSent flag set. -/
theorem C4_alert_at_most_once (store : List AlertReading) (ticks : List AlertTick)
    (hids : (store.map (fun r => r.rid)).Nodup) :
    (∀ i, (runAlertTicks store ticks).2.count i ≤ 1)
    ∧ (∀ i, sentFlag store i → i ∉ (runAlertTicks store ticks).2)
    ∧ (∀ i, i ∈ (runAlertTicks store ticks).2 → sentFlag (runAlertTicks store ticks).1 i) := by
  obtain ⟨_, _, h3, h4, h5⟩ := runAlertTicks_spec ticks store hids
  exact ⟨h5, h3, h4⟩

/-- C4 instantiated: a two-reading store driven through two delivering
ticks logs each reading at most once. -/
theorem C4_alert_at_most_once_witness :
    (runAlertTicks
      [⟨1, 1, "high", 0, false⟩, ⟨2, 1, "critical", 0, false⟩]
      [⟨1, 0, fun _ => SendOutcome.delivered⟩,
        ⟨1, 0, fun _ => SendOutcome.delivered⟩]).2.count 1 ≤ 1 :=
  (C4_alert_at_most_once
    [⟨1, 1, "high", 0, false⟩, ⟨2, 1, "critical", 0, false⟩]
    [⟨1, 0, fun _ => SendOutcome.delivered⟩, ⟨1, 0, fun _ => SendOutcome.delivered⟩]
    (by decide)).1 1
